import Mathlib

set_option autoImplicit false

/-!
Shallow embedding of `src/unit_test_generator.py` (class `UnitTestGenerator`).

The Python module stores test cases as dictionaries in the list
`self.test_cases`, materializes them into test classes (`generate_test_class`,
`generate_async_test_class`) whose members are closures over one case each,
and exports them as parameter tuples (`generate_parameterized_tests`).
File I/O (the `open` call and the JSON/YAML deserializers) is external and is
abstracted away; everything else is translated directly from the source.
-/

deriving instance DecidableEq for Except

namespace UnitTestGen

/-- Python runtime values, as far as the embedding needs them.  `Value.none`
is Python's `None`. -/
inductive Value where
  | none
  | int (n : Int)
  | bool (b : Bool)
  | str (s : String)
deriving DecidableEq, Repr

/-- Python exception classes that occur in the module or can be raised by a
target function.  `typeError` is the `TypeError` raised by keyword-argument
binding (the spec's `MalformedCaseError` kind), `valueError` is the
`ValueError` raised at line 63 for an unsupported format (the spec's
`UnsupportedFormatError` kind), and `nameError missing` is the `NameError`
raised when the global name `missing` is not defined.  Exception
classification (`pytest.raises` / `isinstance`) is modelled as equality of
classes; the embedded classes have no subclass relation. -/
inductive PyExc where
  | typeError
  | valueError
  | nameError (missing : String)
  | keyError
  | userExc (nm : String)
deriving DecidableEq, Repr

/-- A Python `dict[str, Any]` of keyword arguments, e.g. the `inputs` field. -/
abbrev Kwargs := List (String × Value)

/-- The `mocks` field: dependency path ↦ mock configuration kwargs
(e.g. `{"module.dependency": {"return_value": True}}`). -/
abbrev Mocks := List (String × List (String × Value))

/-- The outcome of invoking `function_to_test(**inputs)`: either the function
returns a value or it raises an exception of some class.  The target function
is opaque to the generator, so it is modelled as this outcome map. -/
abbrev Func := Kwargs → Except PyExc Value

/-- One entry of `self.test_cases`, the dictionary appended by
`add_test_case` (source lines 89-95).  All five keys are always present. -/
structure Case where
  inputs : Kwargs
  expected_output : Value
  expected_exception : Option PyExc
  description : String
  mocks : Mocks
deriving DecidableEq, Repr

/-- The keyword arguments of `add_test_case` (source lines 73-78), with the
same defaults as the Python signature: `expected_output=None`,
`expected_exception=None`, `description=""`, `mocks=None`. -/
structure RegisterArgs where
  inputs : Kwargs
  expected_output : Value := Value.none
  expected_exception : Option PyExc := Option.none
  description : String := ""
  mocks : Option Mocks := Option.none
deriving DecidableEq, Repr

/-- `add_test_case` (source lines 73-95): appends one case dictionary to
`self.test_cases`.  `mocks or {}` maps Python `None` to the empty dict,
which is `Option.getD []` here (an explicit empty dict is also left empty). -/
def add_test_case (store : List Case) (a : RegisterArgs) : List Case :=
  store ++ [{ inputs := a.inputs
            , expected_output := a.expected_output
            , expected_exception := a.expected_exception
            , description := a.description
            , mocks := a.mocks.getD [] }]

/-- The behaviour of one member produced by `create_test` (source lines
118-126) when the host runner executes it: `true` is a passing member,
`false` a failing one (an assertion failure, a `pytest.raises` mismatch, or
an exception propagating out of the member all count as not passing).
`if case_['expected_exception']:` tests truthiness: `None` is falsy and an
exception class is truthy, which is the `Option` match below.
`with pytest.raises(exc)` passes iff the body raises an exception classified
as `exc`; `assert result == case_['expected_output']` is value equality. -/
def runSyncTest (f : Func) (c : Case) : Bool :=
  match c.expected_exception with
  | some exc =>
    match f c.inputs with
    | Except.error e => decide (e = exc)
    | Except.ok _ => false
  | Option.none =>
    match f c.inputs with
    | Except.error _ => false
    | Except.ok v => decide (v = c.expected_output)

/-- C1: the synchronous member passes iff, when `expected_exception` is set,
the target raises exactly an error classified as that exception (any other
error or a normal return fails), and when it is not set, the target returns a
value equal to `expected_output` (any raised error fails). -/
theorem c1_sync_member_pass_iff (f : Func) (c : Case) :
    runSyncTest f c = true ↔
      ((∃ k, c.expected_exception = some k ∧ f c.inputs = Except.error k) ∨
       (c.expected_exception = Option.none ∧ f c.inputs = Except.ok c.expected_output)) := by
  cases hx : c.expected_exception <;> cases hf : f c.inputs <;>
    simp [runSyncTest, hx, hf]

/-- Python `str.lower()`, restricted to the ASCII range (the embedding's
descriptions are ASCII, where `Char.toLower` agrees with Python). -/
def pyLower (s : String) : String := String.mk (s.toList.map Char.toLower)

/-- Python `str.replace(' ', '_')`: every space character (U+0020, and only
that character) becomes an underscore.  Runs of spaces produce one
underscore per space; tabs and other whitespace are untouched. -/
def pyReplaceSpaceUnderscore (s : String) : String :=
  String.mk (s.toList.map (fun ch => if ch = ' ' then '_' else ch))

/-- Member-name derivation shared by both materializers (source lines
113-116 and 142-145): `test_name = f"test_case_{i}"`, overwritten with
`f"test_{description.lower().replace(' ', '_')}"` when the description is
truthy (non-empty). -/
def testMemberName (i : Nat) (desc : String) : String :=
  if desc = "" then "test_case_" ++ toString i
  else "test_" ++ pyReplaceSpaceUnderscore (pyLower desc)

/-- C9: the synchronous path never reads the `mocks` field, so two cases that
agree on `inputs`, `expected_output`, `expected_exception` and `description`
but differ arbitrarily in `mocks` yield members with the same pass/fail
outcome and the same member name. -/
theorem c9_sync_ignores_mocks (f : Func) (c₁ c₂ : Case)
    (hin : c₁.inputs = c₂.inputs)
    (hout : c₁.expected_output = c₂.expected_output)
    (hexc : c₁.expected_exception = c₂.expected_exception)
    (hdesc : c₁.description = c₂.description) :
    runSyncTest f c₁ = runSyncTest f c₂ ∧
    ∀ i : Nat, testMemberName i c₁.description = testMemberName i c₂.description := by
  constructor
  · unfold runSyncTest
    rw [hin, hout, hexc]
  · intro i
    rw [hdesc]

/-- Sample target for witnesses: returns Python `None` on every call. -/
def fnReturnsNone : Func := fun _ => Except.ok Value.none

/-- Sample case used by the C9 witness: no mocks. -/
def caseNoMocks : Case :=
  { inputs := [("x", Value.int 1)]
  , expected_output := Value.none
  , expected_exception := Option.none
  , description := "d"
  , mocks := [] }

/-- Sample case used by the C9 witness: same case but with a mock declared. -/
def caseWithMocks : Case :=
  { caseNoMocks with mocks := [("module.dependency", [("return_value", Value.bool true)])] }

/-- Witness for C9 at two concrete cases differing only in `mocks`. -/
theorem c9_sync_ignores_mocks_witness :
    (caseNoMocks.inputs = caseWithMocks.inputs ∧
     caseNoMocks.expected_output = caseWithMocks.expected_output ∧
     caseNoMocks.expected_exception = caseWithMocks.expected_exception ∧
     caseNoMocks.description = caseWithMocks.description ∧
     caseNoMocks.mocks ≠ caseWithMocks.mocks) ∧
    (runSyncTest fnReturnsNone caseNoMocks = runSyncTest fnReturnsNone caseWithMocks ∧
     ∀ i : Nat,
       testMemberName i caseNoMocks.description = testMemberName i caseWithMocks.description) :=
  ⟨⟨rfl, rfl, rfl, rfl, by decide⟩,
   c9_sync_ignores_mocks fnReturnsNone caseNoMocks caseWithMocks rfl rfl rfl rfl⟩

/-- C10: registering a case with `expected_output` and `expected_exception`
left at their defaults (or passed explicitly as `None`) stores `None` for
both; such a case takes the value-expectation branch of `create_test`, and
its member passes iff the target returns `None`. -/
theorem c10_default_expectations (store : List Case) (a : RegisterArgs) (f : Func)
    (hout : a.expected_output = Value.none)
    (hexc : a.expected_exception = Option.none) :
    ∃ c : Case, add_test_case store a = store ++ [c] ∧
      c.expected_output = Value.none ∧
      c.expected_exception = Option.none ∧
      (runSyncTest f c = true ↔ f a.inputs = Except.ok Value.none) := by
  refine ⟨{ inputs := a.inputs
          , expected_output := a.expected_output
          , expected_exception := a.expected_exception
          , description := a.description
          , mocks := a.mocks.getD [] }, rfl, hout, hexc, ?_⟩
  cases hf : f a.inputs <;> simp [runSyncTest, hexc, hout, hf]

/-- Sample registration args for the C10 witness: only `inputs` supplied. -/
def argsOnlyInputs : RegisterArgs := { inputs := [("x", Value.int 1)] }

/-- Witness for C10 at a concrete registration with default expectations. -/
theorem c10_default_expectations_witness :
    (argsOnlyInputs.expected_output = Value.none ∧
     argsOnlyInputs.expected_exception = Option.none) ∧
    ∃ c : Case, add_test_case [] argsOnlyInputs = [] ++ [c] ∧
      c.expected_output = Value.none ∧
      c.expected_exception = Option.none ∧
      (runSyncTest fnReturnsNone c = true ↔
        fnReturnsNone argsOnlyInputs.inputs = Except.ok Value.none) :=
  ⟨⟨rfl, rfl⟩, c10_default_expectations [] argsOnlyInputs fnReturnsNone rfl rfl⟩

/-- Python `setattr(cls, name, v)` on the class attribute dictionary: if the
name is already bound it is rebound in place (dict update keeps insertion
position), otherwise the pair is appended. -/
def setattrList {α : Type} (attrs : List (String × α)) (nm : String) (v : α) :
    List (String × α) :=
  if attrs.any (fun p => decide (p.1 = nm)) then
    attrs.map (fun p => if p.1 = nm then (nm, v) else p)
  else attrs ++ [(nm, v)]

/-- Attribute lookup on the class attribute dictionary (first binding wins;
keys are unique by construction). -/
def lookupAttr {α : Type} : List (String × α) → String → Option α
  | [], _ => Option.none
  | p :: ps, nm => if p.1 = nm then some p.2 else lookupAttr ps nm

/-- A generated test class: the `class_name` set at source line 130/171 and
the attribute dictionary of test members, keyed by member name. -/
structure TestClass (α : Type) where
  clsName : String
  members : List (String × α)
deriving Repr

/-- The `for i, test_case in enumerate(test_cases): ... setattr(...)` loop
shared in shape by both materializers (source lines 113-128 and 142-169):
`i` is the running index, `attrs` the attribute dictionary built so far and
`mk` the closure factory (`create_test` / `create_async_test`). -/
def membersAux {α : Type} (mk : Case → α) :
    Nat → List Case → List (String × α) → List (String × α)
  | _, [], attrs => attrs
  | i, c :: rest, attrs =>
      membersAux mk (i + 1) rest (setattrList attrs (testMemberName i c.description) (mk c))

/-- `generate_test_class` (source lines 97-131): one synchronous member per
case, each member's runtime behaviour being `runSyncTest f c`. -/
def generate_test_class (f : Func) (className : String) (store : List Case) :
    TestClass Bool :=
  { clsName := className, members := membersAux (runSyncTest f) 0 store [] }

/-- Substitution-lifecycle events a suspending member could perform:
acquiring a scoped mock, driving the target, releasing a mock. -/
inductive MockEvent where
  | acquire (target : String)
  | invokeTarget
  | release (target : String)
deriving DecidableEq, Repr

/-- The behaviour of one member produced by `create_async_test` (source
lines 147-167) when the host runner drives it: the trace of
substitution/invocation events it performs, and its outcome (a pass/fail
`Bool`, or the exception that escaped the member).

The module imports only `inspect`, `json`, `Path`, names from `typing`,
`pytest` and `yaml`; the globals `patch` (line 152) and `AsyncExitStack`
(line 155) are never imported or defined.  Python resolves both names at
call time, so: with a non-empty `mocks` dict the first loop iteration
evaluates `patch(target, **mock_config)` and raises `NameError('patch')`;
with an empty `mocks` dict the loop body never runs and
`async with AsyncExitStack() as stack:` raises
`NameError('AsyncExitStack')`.  Either way the member errors before any
substitution is acquired and before the target is awaited, so the event
trace is empty. -/
def runAsyncTest (_f : Func) (c : Case) : List MockEvent × Except PyExc Bool :=
  match c.mocks with
  | _ :: _ => ([], Except.error (PyExc.nameError "patch"))
  | [] => ([], Except.error (PyExc.nameError "AsyncExitStack"))

/-- `generate_async_test_class` (source lines 134-172): one suspending member
per case, each member's runtime behaviour being `runAsyncTest f c`. -/
def generate_async_test_class (f : Func) (className : String) (store : List Case) :
    TestClass (List MockEvent × Except PyExc Bool) :=
  { clsName := className, members := membersAux (runAsyncTest f) 0 store [] }

section AttrLemmas

variable {α : Type}

/-- Lookup distributes over appending attribute bindings. -/
theorem lookupAttr_append (xs ys : List (String × α)) (m : String) :
    lookupAttr (xs ++ ys) m =
      match lookupAttr xs m with
      | some v => some v
      | Option.none => lookupAttr ys m := by
  induction xs with
  | nil => simp [lookupAttr]
  | cons p ps ih =>
    by_cases h : p.1 = m <;> simp [lookupAttr, h, ih]

/-- If no binding carries the key, lookup misses. -/
theorem lookupAttr_eq_none (xs : List (String × α)) (nm : String)
    (h : xs.any (fun p => decide (p.1 = nm)) = false) :
    lookupAttr xs nm = Option.none := by
  induction xs with
  | nil => simp [lookupAttr]
  | cons p ps ih =>
    simp only [List.any_cons, Bool.or_eq_false_iff, decide_eq_false_iff_not] at h
    simp [lookupAttr, h.1, ih h.2]

/-- Overwriting a key in place leaves every other key's lookup unchanged. -/
theorem lookupAttr_overwriteMap (xs : List (String × α)) (nm : String) (v : α)
    (m : String) (hm : m ≠ nm) :
    lookupAttr (xs.map (fun p => if p.1 = nm then (nm, v) else p)) m =
      lookupAttr xs m := by
  induction xs with
  | nil => simp [lookupAttr]
  | cons p ps ih =>
    by_cases hp : p.1 = nm
    · have h₁ : p.1 ≠ m := fun hc => hm (hc ▸ hp ▸ rfl)
      simp [lookupAttr, hp, Ne.symm hm, h₁, ih]
    · by_cases hq : p.1 = m <;> simp [lookupAttr, hp, hq, hm, ih]

/-- Overwriting a present key makes its lookup return the new value. -/
theorem lookupAttr_overwriteMap_self (xs : List (String × α)) (nm : String)
    (v : α) (h : xs.any (fun p => decide (p.1 = nm)) = true) :
    lookupAttr (xs.map (fun p => if p.1 = nm then (nm, v) else p)) nm = some v := by
  induction xs with
  | nil => simp at h
  | cons p ps ih =>
    by_cases hp : p.1 = nm
    · simp [lookupAttr, hp]
    · simp only [List.any_cons, Bool.or_eq_true, decide_eq_true_eq, hp, false_or] at h
      simp [lookupAttr, hp, ih h]

/-- Lookup after a `setattr`: the written key reads back the new value and
every other key is unchanged. -/
theorem lookupAttr_setattrList (attrs : List (String × α)) (nm : String)
    (v : α) (m : String) :
    lookupAttr (setattrList attrs nm v) m =
      if m = nm then some v else lookupAttr attrs m := by
  by_cases hany : attrs.any (fun p => decide (p.1 = nm)) = true
  · by_cases hm : m = nm
    · subst hm
      simp [setattrList, hany, lookupAttr_overwriteMap_self attrs m v hany]
    · simp [setattrList, hany, hm, lookupAttr_overwriteMap attrs nm v m hm]
  · have hany' : attrs.any (fun p => decide (p.1 = nm)) = false :=
      Bool.eq_false_iff.mpr hany
    by_cases hm : m = nm
    · subst hm
      simp [setattrList, hany', lookupAttr_append,
            lookupAttr_eq_none attrs m hany', lookupAttr]
    · simp only [setattrList, hany', Bool.false_eq_true, if_false, if_neg hm,
                 lookupAttr_append]
      cases hl : lookupAttr attrs m with
      | none => simp [lookupAttr, Ne.symm hm]
      | some w => rfl

/-- Every member name written by the materializer loop stays present in the
attribute dictionary it builds. -/
theorem membersAux_preserves_isSome (mk : Case → α) :
    ∀ (store : List Case) (i : Nat) (attrs : List (String × α)) (m : String),
      (lookupAttr attrs m).isSome = true →
      (lookupAttr (membersAux mk i store attrs) m).isSome = true := by
  intro store
  induction store with
  | nil => intro i attrs m h; simpa [membersAux] using h
  | cons c rest ih =>
    intro i attrs m h
    refine ih (i + 1) _ m ?_
    rw [lookupAttr_setattrList]
    by_cases hm : m = testMemberName i c.description <;> simp [hm, h]

/-- The member name derived for the case at index `j` of the remaining store
is bound in the finished attribute dictionary. -/
theorem membersAux_name_isSome (mk : Case → α) :
    ∀ (store : List Case) (i : Nat) (attrs : List (String × α)) (j : Nat) (c : Case),
      store[j]? = some c →
      (lookupAttr (membersAux mk i store attrs)
          (testMemberName (i + j) c.description)).isSome = true := by
  intro store
  induction store with
  | nil => intro i attrs j c h; simp at h
  | cons c₀ rest ih =>
    intro i attrs j c h
    cases j with
    | zero =>
      simp only [List.getElem?_cons_zero, Option.some_inj] at h
      subst h
      refine membersAux_preserves_isSome mk rest (i + 1) _ _ ?_
      simp [lookupAttr_setattrList]
    | succ j' =>
      have hrest : rest[j']? = some c := by simpa using h
      have harith : i + (j' + 1) = (i + 1) + j' := by omega
      rw [show membersAux mk i (c₀ :: rest) attrs =
            membersAux mk (i + 1) rest
              (setattrList attrs (testMemberName i c₀.description) (mk c₀)) from rfl,
          harith]
      exact ih (i + 1) _ j' c hrest

end AttrLemmas

/-- Spec-side normalization (§4.2 wording, for comparison with the source):
lower-case the characters and replace every internal whitespace run (any
length, any whitespace characters) by a single underscore.  `prevWs` records
whether the previous character belonged to a whitespace run. -/
def specNormalizeChars : Bool → List Char → List Char
  | _, [] => []
  | prevWs, ch :: cs =>
    if ch.isWhitespace then
      if prevWs then specNormalizeChars true cs
      else '_' :: specNormalizeChars true cs
    else Char.toLower ch :: specNormalizeChars false cs

/-- Spec-side identifier base (§4.2) for a non-empty description. -/
def specIdentifierBase (desc : String) : String :=
  String.mk (specNormalizeChars false desc.toList)

/-- Spec-side identifier (§4.2): identifier base for a non-empty description,
`case_{i}` otherwise.  This is what claims C6/C7 assert; it is compared with
what the source emits. -/
def specIdentifier (i : Nat) (desc : String) : String :=
  if desc = "" then "case_" ++ toString i else specIdentifierBase desc

/-- Spec-side member name asserted by claim C7: `test_` followed by the
§4.2 identifier base, or `test_case_{i}` for an empty description. -/
def specMemberName (i : Nat) (desc : String) : String :=
  if desc = "" then "test_case_" ++ toString i
  else "test_" ++ specIdentifierBase desc

/-- C2 (code bug): every member produced by `generate_async_test_class`
raises a `NameError` before acquiring any substitution and before driving
the target — `patch` and `AsyncExitStack` are never imported by the module —
so its event trace is empty and its outcome is an escaped `NameError`, never
a pass/fail verdict with substitutions in scope. -/
theorem c2_async_member_name_error (f : Func) (c : Case) :
    (runAsyncTest f c).1 = [] ∧
    ((runAsyncTest f c).2 = Except.error (PyExc.nameError "patch") ∨
     (runAsyncTest f c).2 = Except.error (PyExc.nameError "AsyncExitStack")) := by
  cases hm : c.mocks <;> simp [runAsyncTest, hm]

/-- C3 amended: when two cases of a two-case store derive the same member
name, `generate_test_class` raises no error; the later case's member
silently replaces the earlier one's, leaving a single member with the later
case's behaviour. -/
theorem c3_duplicate_name_silent_overwrite (f : Func) (cn : String) (c₁ c₂ : Case)
    (h : testMemberName 0 c₁.description = testMemberName 1 c₂.description) :
    (generate_test_class f cn [c₁, c₂]).members =
      [(testMemberName 1 c₂.description, runSyncTest f c₂)] := by
  simp [generate_test_class, membersAux, setattrList, h]

/-- Duplicate-description case used for C3: expects the target to return 1. -/
def dupCaseA : Case :=
  { inputs := []
  , expected_output := Value.int 1
  , expected_exception := Option.none
  , description := "dup"
  , mocks := [] }

/-- Duplicate-description case used for C3: expects the target to return 2. -/
def dupCaseB : Case := { dupCaseA with expected_output := Value.int 2 }

/-- Sample target for C3: always returns 1. -/
def fnReturnsOne : Func := fun _ => Except.ok (Value.int 1)

/-- Counterexample to C3 as stated: a store with two cases deriving the same
member name `test_dup` materializes without any error into a class with a
single member — the later case's (failing) member — even though the dropped
earlier case would have passed.  No `DuplicateTestIdentifierError` exists in
the source. -/
theorem c3_counterexample :
    (generate_test_class fnReturnsOne "TestDup" [dupCaseA, dupCaseB]).members =
      [("test_dup", false)] ∧
    runSyncTest fnReturnsOne dupCaseA = true ∧
    runSyncTest fnReturnsOne dupCaseB = false := by
  decide

/-- Witness for the amended C3 at the concrete duplicate pair. -/
theorem c3_duplicate_name_silent_overwrite_witness :
    (testMemberName 0 dupCaseA.description = testMemberName 1 dupCaseB.description) ∧
    (generate_test_class fnReturnsOne "TestDup" [dupCaseA, dupCaseB]).members =
      [(testMemberName 1 dupCaseB.description, runSyncTest fnReturnsOne dupCaseB)] :=
  ⟨by decide,
   c3_duplicate_name_silent_overwrite fnReturnsOne "TestDup" dupCaseA dupCaseB (by decide)⟩

/-- Case with a two-space run in its description, used against C7. -/
def doubleSpaceCase : Case :=
  { inputs := []
  , expected_output := Value.none
  , expected_exception := Option.none
  , description := "a  b"
  , mocks := [] }

/-- Counterexample to C7 as stated: for the description `"a  b"` the
source-derived member name keeps one underscore per space
(`str.replace(' ', '_')`), yielding `test_a__b`, while the claim's
whitespace-run rule demands `test_a_b`. -/
theorem c7_counterexample :
    (generate_test_class fnReturnsNone "TestWs" [doubleSpaceCase]).members.map Prod.fst =
      ["test_a__b"] ∧
    specMemberName 0 doubleSpaceCase.description = "test_a_b" ∧
    ("test_a__b" : String) ≠ "test_a_b" := by
  decide

/-- C7 amended: both materializers bind, for the case at index `i`, a member
named `test_` followed by the description lower-cased with each space
character replaced by one underscore (one underscore per space, other
whitespace untouched), or `test_case_{i}` when the description is empty. -/
theorem c7_member_name_derivation (f : Func) (cn : String) (store : List Case)
    (i : Nat) (c : Case) (h : store[i]? = some c) :
    (lookupAttr (generate_test_class f cn store).members
        (if c.description = "" then "test_case_" ++ toString i
         else "test_" ++ pyReplaceSpaceUnderscore (pyLower c.description))).isSome = true ∧
    (lookupAttr (generate_async_test_class f cn store).members
        (if c.description = "" then "test_case_" ++ toString i
         else "test_" ++ pyReplaceSpaceUnderscore (pyLower c.description))).isSome = true := by
  have hname : (if c.description = "" then "test_case_" ++ toString i
      else "test_" ++ pyReplaceSpaceUnderscore (pyLower c.description)) =
      testMemberName i c.description := rfl
  rw [hname]
  constructor
  · have := membersAux_name_isSome (runSyncTest f) store 0 [] i c h
    simpa [generate_test_class] using this
  · have := membersAux_name_isSome (runAsyncTest f) store 0 [] i c h
    simpa [generate_async_test_class] using this

/-- Witness for the amended C7 at a concrete one-case store. -/
theorem c7_member_name_derivation_witness :
    (([doubleSpaceCase] : List Case)[0]? = some doubleSpaceCase) ∧
    ((lookupAttr (generate_test_class fnReturnsNone "TestWs" [doubleSpaceCase]).members
        (if doubleSpaceCase.description = "" then "test_case_" ++ toString 0
         else "test_" ++ pyReplaceSpaceUnderscore (pyLower doubleSpaceCase.description))).isSome = true ∧
     (lookupAttr (generate_async_test_class fnReturnsNone "TestWs" [doubleSpaceCase]).members
        (if doubleSpaceCase.description = "" then "test_case_" ++ toString 0
         else "test_" ++ pyReplaceSpaceUnderscore (pyLower doubleSpaceCase.description))).isSome = true) :=
  ⟨rfl,
   c7_member_name_derivation fnReturnsNone "TestWs" [doubleSpaceCase] 0 doubleSpaceCase rfl⟩

/-- One tuple produced by `generate_parameterized_tests` (source lines
182-190): `pytest.param(inputs, expected_output, expected_exception, id=…)`. -/
structure Param where
  inputs : Kwargs
  expected_output : Value
  expected_exception : Option PyExc
  paramId : String
deriving DecidableEq, Repr

/-- The `for i, case_ in enumerate(self.test_cases)` comprehension of
`generate_parameterized_tests`, with `i` the running index.  The id is
`case_['description'] or f"test_case_{i}"`: the description verbatim when
truthy (non-empty), else the literal fallback `test_case_{i}`. -/
def genParamsAux : Nat → List Case → List Param
  | _, [] => []
  | i, c :: rest =>
      { inputs := c.inputs
      , expected_output := c.expected_output
      , expected_exception := c.expected_exception
      , paramId := if c.description = "" then "test_case_" ++ toString i
                   else c.description } :: genParamsAux (i + 1) rest

/-- `generate_parameterized_tests` (source lines 175-190).  It reads only
`self.test_cases`; the target function does not appear in its body, so the
exporter performs no invocation and no assertion. -/
def generate_parameterized_tests (store : List Case) : List Param :=
  genParamsAux 0 store

/-- Index correspondence for the exporter loop, generalized over the running
index. -/
theorem genParamsAux_getElem (store : List Case) :
    ∀ (k i : Nat) (c : Case), store[i]? = some c →
      (genParamsAux k store)[i]? = some
        { inputs := c.inputs
        , expected_output := c.expected_output
        , expected_exception := c.expected_exception
        , paramId := if c.description = "" then "test_case_" ++ toString (k + i)
                     else c.description } := by
  induction store with
  | nil => intro k i c h; simp at h
  | cons c₀ rest ih =>
    intro k i c h
    cases i with
    | zero =>
      simp only [List.getElem?_cons_zero, Option.some_inj] at h
      subst h
      simp [genParamsAux]
    | succ i' =>
      have hrest : rest[i']? = some c := by simpa using h
      have harith : k + (i' + 1) = (k + 1) + i' := by omega
      rw [harith]
      simpa [genParamsAux] using ih (k + 1) i' c hrest

/-- The exporter loop preserves length. -/
theorem genParamsAux_length (store : List Case) :
    ∀ k : Nat, (genParamsAux k store).length = store.length := by
  induction store with
  | nil => intro k; rfl
  | cons c rest ih => intro k; simp [genParamsAux, ih]

/-- C5: `generate_parameterized_tests` returns exactly one tuple per
registered case, in registration order, the i-th tuple carrying the i-th
case's `inputs`, `expected_output` and `expected_exception`.  The definition
takes only the store — mirroring the source, whose comprehension never
references `self.func` — so the exporter invokes the target zero times and
asserts nothing. -/
theorem c5_export_parameters (store : List Case) :
    (generate_parameterized_tests store).length = store.length ∧
    ∀ (i : Nat) (c : Case), store[i]? = some c →
      ∃ p : Param, (generate_parameterized_tests store)[i]? = some p ∧
        p.inputs = c.inputs ∧
        p.expected_output = c.expected_output ∧
        p.expected_exception = c.expected_exception := by
  refine ⟨genParamsAux_length store 0, ?_⟩
  intro i c h
  exact ⟨_, by simpa [generate_parameterized_tests] using
    genParamsAux_getElem store 0 i c h, rfl, rfl, rfl⟩

/-- Witness for C5 at a concrete one-case store. -/
theorem c5_export_parameters_witness :
    (generate_parameterized_tests [caseNoMocks]).length = 1 ∧
    (([caseNoMocks] : List Case)[0]? = some caseNoMocks) ∧
    ∃ p : Param, (generate_parameterized_tests [caseNoMocks])[0]? = some p ∧
      p.inputs = caseNoMocks.inputs ∧
      p.expected_output = caseNoMocks.expected_output ∧
      p.expected_exception = caseNoMocks.expected_exception :=
  ⟨(c5_export_parameters [caseNoMocks]).1, rfl,
   (c5_export_parameters [caseNoMocks]).2 0 caseNoMocks rfl⟩

/-- Case used against C6: its description is capitalized with a space, so
the §4.2 normalized identifier differs from the verbatim description. -/
def basicDiscountCase : Case :=
  { inputs := [("price", Value.int 100)]
  , expected_output := Value.int 80
  , expected_exception := Option.none
  , description := "Basic Discount"
  , mocks := [] }

/-- Case used against C6: empty description. -/
def emptyDescCase : Case :=
  { inputs := []
  , expected_output := Value.none
  , expected_exception := Option.none
  , description := ""
  , mocks := [] }

/-- Counterexample to C6 as stated: the exporter attaches the description
verbatim (`"Basic Discount"`), not the §4.2-normalized `"basic_discount"`,
and for an empty description it attaches `"test_case_0"`, not `"case_0"`. -/
theorem c6_counterexample :
    ((generate_parameterized_tests [basicDiscountCase]).map Param.paramId =
        ["Basic Discount"] ∧
      specIdentifier 0 basicDiscountCase.description = "basic_discount" ∧
      ("Basic Discount" : String) ≠ "basic_discount") ∧
    ((generate_parameterized_tests [emptyDescCase]).map Param.paramId =
        ["test_case_0"] ∧
      specIdentifier 0 emptyDescCase.description = "case_0" ∧
      ("test_case_0" : String) ≠ "case_0") := by
  decide

/-- C6 amended: the identifier attached by the exporter to the i-th tuple is
the case's description verbatim when it is non-empty (no lower-casing, no
whitespace replacement), and the literal `test_case_{i}` when it is empty. -/
theorem c6_export_identifier (store : List Case) (i : Nat) (c : Case)
    (h : store[i]? = some c) :
    ∃ p : Param, (generate_parameterized_tests store)[i]? = some p ∧
      p.paramId = (if c.description = "" then "test_case_" ++ toString i
                   else c.description) := by
  refine ⟨_, by simpa [generate_parameterized_tests] using
    genParamsAux_getElem store 0 i c h, ?_⟩
  simp

/-- Witness for the amended C6 at both branches (non-empty and empty
description). -/
theorem c6_export_identifier_witness :
    (([basicDiscountCase] : List Case)[0]? = some basicDiscountCase ∧
      ∃ p : Param, (generate_parameterized_tests [basicDiscountCase])[0]? = some p ∧
        p.paramId = (if basicDiscountCase.description = "" then "test_case_" ++ toString 0
                     else basicDiscountCase.description)) ∧
    (([emptyDescCase] : List Case)[0]? = some emptyDescCase ∧
      ∃ p : Param, (generate_parameterized_tests [emptyDescCase])[0]? = some p ∧
        p.paramId = (if emptyDescCase.description = "" then "test_case_" ++ toString 0
                     else emptyDescCase.description)) :=
  ⟨⟨rfl, c6_export_identifier [basicDiscountCase] 0 basicDiscountCase rfl⟩,
   ⟨rfl, c6_export_identifier [emptyDescCase] 0 emptyDescCase rfl⟩⟩

/-- Index of the last `'.'` in a list of characters, if any. -/
def lastDotIdx : List Char → Option Nat
  | [] => Option.none
  | ch :: cs =>
    match lastDotIdx cs with
    | some i => some (i + 1)
    | Option.none => if ch = '.' then some 0 else Option.none

/-- `pathlib.Path(p).suffix` for a POSIX path: the final component's part
from its last dot onward, empty when the last dot is leading (hidden files)
or trailing or absent. -/
def pathSuffix (p : String) : String :=
  let nm := (p.splitOn "/").getLastD ""
  let cs := nm.toList
  match lastDotIdx cs with
  | some i => if 0 < i ∧ i + 1 < cs.length then String.mk (cs.drop i) else ""
  | Option.none => ""

/-- Python `str.lstrip('.')`: remove every leading dot. -/
def lstripDot (s : String) : String :=
  String.mk (s.toList.dropWhile (fun ch => ch = '.'))

/-- The format string actually dispatched on (source lines 54-55):
`'auto'` is replaced by `path.suffix.lstrip('.')`, anything else is used
as given. -/
def resolvedFormat (path fmt : String) : String :=
  if fmt = "auto" then lstripDot (pathSuffix path) else fmt

/-- Which deserializer the loader hands the file to. -/
inductive FileFormat where
  | yaml
  | json
deriving DecidableEq, Repr

/-- The format dispatch of `add_test_cases_from_file` (source lines 49-63):
`yaml`/`yml` select the YAML deserializer, `json` selects JSON, anything
else raises `ValueError(f"Unsupported format: {format}")` — the spec's
`UnsupportedFormatError` kind.  File I/O and the deserializers themselves
are external and abstracted away. -/
def selectLoader (path fmt : String) : Except PyExc FileFormat :=
  if resolvedFormat path fmt = "yaml" ∨ resolvedFormat path fmt = "yml" then
    Except.ok FileFormat.yaml
  else if resolvedFormat path fmt = "json" then Except.ok FileFormat.json
  else Except.error PyExc.valueError

/-- Counterexample to C8 as stated: the explicit format `"yml"` lies outside
the claim's `{json, yaml, auto}`, yet the loader accepts it and selects the
YAML deserializer instead of failing. -/
theorem c8_counterexample :
    (("yml" : String) ≠ "json" ∧ ("yml" : String) ≠ "yaml" ∧
      ("yml" : String) ≠ "auto") ∧
    selectLoader "cases.txt" "yml" = Except.ok FileFormat.yaml := by
  decide

/-- C8 amended: the load fails with the `UnsupportedFormatError` kind
exactly when the dispatched format — the explicit format, or for `auto` the
path's extension stripped of its leading dot — is none of `yaml`, `yml`,
`json`.  In particular an explicit format outside `{json, yaml, yml, auto}`
fails, and an `auto` request whose path extension is not `.json`, `.yaml`
or `.yml` fails. -/
theorem c8_unsupported_format (path fmt : String) :
    selectLoader path fmt = Except.error PyExc.valueError ↔
      (resolvedFormat path fmt ≠ "yaml" ∧ resolvedFormat path fmt ≠ "yml" ∧
       resolvedFormat path fmt ≠ "json") := by
  by_cases h₁ : resolvedFormat path fmt = "yaml" <;>
    by_cases h₂ : resolvedFormat path fmt = "yml" <;>
      by_cases h₃ : resolvedFormat path fmt = "json" <;>
        simp [selectLoader, h₁, h₂, h₃]

/-- One key/value entry of a case dictionary handed to `bulk_add_test_cases`.
A recognized key carries a payload of the shape `add_test_case` expects;
`other key` is an entry under an unrecognized key (its payload is
irrelevant to keyword binding). -/
inductive CaseField where
  | inputs (v : Kwargs)
  | expected_output (v : Value)
  | expected_exception (v : Option PyExc)
  | description (v : String)
  | mocks (v : Option Mocks)
  | other (key : String)
deriving DecidableEq, Repr

/-- The dictionary key of an entry. -/
def CaseField.key : CaseField → String
  | CaseField.inputs _ => "inputs"
  | CaseField.expected_output _ => "expected_output"
  | CaseField.expected_exception _ => "expected_exception"
  | CaseField.description _ => "description"
  | CaseField.mocks _ => "mocks"
  | CaseField.other k => k

/-- The parameter names of `add_test_case` (besides the bound `self`). -/
def paramNames : List String :=
  ["inputs", "expected_output", "expected_exception", "description", "mocks"]

/-- Value bound to the `inputs` parameter, if the dictionary provides one. -/
def getInputs : List CaseField → Option Kwargs
  | [] => Option.none
  | CaseField.inputs v :: _ => some v
  | _ :: rest => getInputs rest

/-- Value bound to the `expected_output` parameter, if provided. -/
def getExpectedOutput : List CaseField → Option Value
  | [] => Option.none
  | CaseField.expected_output v :: _ => some v
  | _ :: rest => getExpectedOutput rest

/-- Value bound to the `expected_exception` parameter, if provided. -/
def getExpectedException : List CaseField → Option (Option PyExc)
  | [] => Option.none
  | CaseField.expected_exception v :: _ => some v
  | _ :: rest => getExpectedException rest

/-- Value bound to the `description` parameter, if provided. -/
def getDescription : List CaseField → Option String
  | [] => Option.none
  | CaseField.description v :: _ => some v
  | _ :: rest => getDescription rest

/-- Value bound to the `mocks` parameter, if provided. -/
def getMocks : List CaseField → Option (Option Mocks)
  | [] => Option.none
  | CaseField.mocks v :: _ => some v
  | _ :: rest => getMocks rest

/-- Keyword binding of `self.add_test_case(**case_)` (source line 70):
Python raises `TypeError` — the spec's `MalformedCaseError` kind — when a
key matches no parameter of `add_test_case` (unexpected keyword argument)
or when the required parameter `inputs` stays unbound; otherwise each
provided key binds its parameter and the remaining parameters take the
defaults of the signature. -/
def bindAddTestCase (d : List CaseField) : Except PyExc RegisterArgs :=
  if d.any (fun fl => decide (¬ fl.key ∈ paramNames)) then
    Except.error PyExc.typeError
  else
    match getInputs d with
    | Option.none => Except.error PyExc.typeError
    | some inp =>
        Except.ok
          { inputs := inp
          , expected_output := (getExpectedOutput d).getD Value.none
          , expected_exception := (getExpectedException d).getD Option.none
          , description := (getDescription d).getD ""
          , mocks := (getMocks d).getD Option.none }

/-- `bulk_add_test_cases` (source lines 67-70): register each dictionary in
turn via `add_test_case(**case_)`; a binding failure aborts the call with
the raised error. -/
def bulk_add_test_cases (store : List Case) :
    List (List CaseField) → Except PyExc (List Case)
  | [] => Except.ok store
  | d :: rest =>
    match bindAddTestCase d with
    | Except.error e => Except.error e
    | Except.ok a => bulk_add_test_cases (add_test_case store a) rest

/-- If no entry is an `inputs` entry, nothing binds the `inputs` parameter. -/
theorem getInputs_eq_none (d : List CaseField)
    (h : ∀ fl ∈ d, ∀ v, fl ≠ CaseField.inputs v) :
    getInputs d = Option.none := by
  induction d with
  | nil => rfl
  | cons fl rest ih =>
    have hrest : ∀ fl ∈ rest, ∀ v, fl ≠ CaseField.inputs v :=
      fun fl hfl v => h fl (List.mem_cons_of_mem _ hfl) v
    cases fl with
    | inputs v => exact absurd rfl (h _ (List.mem_cons_self _ _) v)
    | expected_output v => exact ih hrest
    | expected_exception v => exact ih hrest
    | description v => exact ih hrest
    | mocks v => exact ih hrest
    | other k => exact ih hrest

/-- Keyword binding only ever fails with the `TypeError` kind. -/
theorem bindAddTestCase_error_kind (d : List CaseField) (e : PyExc)
    (h : bindAddTestCase d = Except.error e) : e = PyExc.typeError := by
  unfold bindAddTestCase at h
  split at h
  · injection h with h₂
    exact h₂.symm
  · split at h
    · injection h with h₂
      exact h₂.symm
    · exact Except.noConfusion h

/-- A malformed dictionary — one with an unrecognized key, or one that never
binds `inputs` — fails keyword binding with the `TypeError` kind. -/
theorem bindAddTestCase_error (d : List CaseField)
    (hbad : (∃ fl ∈ d, ¬ fl.key ∈ paramNames) ∨
            (∀ fl ∈ d, fl.key ≠ "inputs")) :
    bindAddTestCase d = Except.error PyExc.typeError := by
  by_cases hany : d.any (fun fl => decide (¬ fl.key ∈ paramNames)) = true
  · unfold bindAddTestCase
    rw [if_pos hany]
  · have hany' := Bool.eq_false_iff.mpr hany
    rcases hbad with ⟨fl, hmem, hkey⟩ | hno
    · exact absurd (List.any_eq_true.mpr ⟨fl, hmem, by simpa using hkey⟩) hany
    · have hno' : ∀ fl ∈ d, ∀ v, fl ≠ CaseField.inputs v := by
        intro fl hfl v heq
        exact hno fl hfl (by rw [heq]; rfl)
      simp [bindAddTestCase, hany', getInputs_eq_none d hno']

/-- Registration via `bulk_add_test_cases` fails with the `TypeError` kind
whenever the sequence contains a malformed dictionary. -/
theorem bulk_error_of_mem_bad (d : List CaseField)
    (hbad : (∃ fl ∈ d, ¬ fl.key ∈ paramNames) ∨
            (∀ fl ∈ d, fl.key ≠ "inputs")) :
    ∀ (cases : List (List CaseField)) (store : List Case), d ∈ cases →
      bulk_add_test_cases store cases = Except.error PyExc.typeError := by
  intro cases
  induction cases with
  | nil => intro store h; simp at h
  | cons d₀ rest ih =>
    intro store h
    rcases List.mem_cons.mp h with h₀ | hmem
    · subst h₀
      simp [bulk_add_test_cases, bindAddTestCase_error d hbad]
    · cases hd₀ : bindAddTestCase d₀ with
      | error e =>
        have he := bindAddTestCase_error_kind d₀ e hd₀
        subst he
        simp [bulk_add_test_cases, hd₀]
      | ok a =>
        simp only [bulk_add_test_cases, hd₀]
        exact ih _ hmem

/-- C4: an element of a `bulk_add_test_cases` sequence that is missing the
required key `inputs`, or that carries an unrecognized key, makes the call
fail with the `TypeError` Python raises for bad keyword binding — the
spec's `MalformedCaseError` kind — while an element carrying only `inputs`
registers cleanly with every optional field at its default. -/
theorem c4_bulk_register_validation :
    (∀ (store : List Case) (cases : List (List CaseField)) (d : List CaseField),
        d ∈ cases →
        ((∃ fl ∈ d, ¬ fl.key ∈ paramNames) ∨
         (∀ fl ∈ d, fl.key ≠ "inputs")) →
        bulk_add_test_cases store cases = Except.error PyExc.typeError) ∧
    (∀ (store : List Case) (inp : Kwargs),
        bulk_add_test_cases store [[CaseField.inputs inp]] =
          Except.ok (add_test_case store { inputs := inp })) := by
  constructor
  · intro store cases d hmem hbad
    exact bulk_error_of_mem_bad d hbad cases store hmem
  · intro store inp
    rfl

/-- Witness for C4: a dictionary missing `inputs`, a dictionary with an
unrecognized key, and a dictionary carrying only `inputs`, all at concrete
values. -/
theorem c4_bulk_register_validation_witness :
    bulk_add_test_cases [] [[CaseField.description "x"]] =
      Except.error PyExc.typeError ∧
    bulk_add_test_cases [] [[CaseField.inputs [], CaseField.other "bogus"]] =
      Except.error PyExc.typeError ∧
    bulk_add_test_cases [] [[CaseField.inputs []]] =
      Except.ok (add_test_case [] { inputs := [] }) := by
  refine ⟨?_, ?_, c4_bulk_register_validation.2 [] []⟩
  · refine c4_bulk_register_validation.1 [] _ _ (List.mem_singleton.mpr rfl)
      (Or.inr ?_)
    intro fl hfl
    rcases List.mem_singleton.mp hfl with rfl
    simp [CaseField.key]
  · refine c4_bulk_register_validation.1 [] _ _ (List.mem_singleton.mpr rfl)
      (Or.inl ⟨CaseField.other "bogus", ?_, ?_⟩)
    · simp
    · simp [CaseField.key, paramNames]

end UnitTestGen
